import Mathlib

/-!
Shallow embedding of `pkg/rpc/server.go` of longhorn-share-manager.

The server manages a single volume's share lifecycle: Mount, Unmount,
FilesystemResize, FilesystemTrim, plus a gRPC health check server.
External effects (mount syscalls, NFS exporter, device queries, fstrim)
are modelled by an `Env` of result-returning functions; each operation
returns its gRPC result, the new server state (the `shareExported` flag
held by `server.ShareManager`), and the list of adapter calls it made.
Go errors are `Option String` (`none` = nil error) or `Except String α`
for calls returning a value alongside the error.
-/

namespace ShareManager

/-- Volume descriptor (`volume.Volume`).  `isEncrypted` models the
`vol.IsEncrypted()` predicate (the `pkg/volume` package is outside the
embedded file; the flag is carried as a field per the spec's data model). -/
structure Volume where
  name : String
  dataEngine : String
  passphrase : String
  isEncrypted : Bool
  deriving DecidableEq

/-- The OS mount record returned by `filesystem.GetMount` (only the field
the server reads). -/
structure MountRecord where
  deviceNumber : Nat
  deriving DecidableEq

/-- Mutable state of the `server.ShareManager` that `rpc.ShareManagerServer`
reads and writes: the `shareExported` flag. -/
structure ServerState where
  shareExported : Bool
  deriving DecidableEq

/-- gRPC status codes used by `server.go`. -/
inductive GrpcCode where
  | internal
  | invalidArgument
  | failedPrecondition
  deriving DecidableEq

/-- A gRPC error: code plus message. -/
structure GrpcError where
  code : GrpcCode
  msg : String
  deriving DecidableEq

/-- Result of a unary RPC returning `*emptypb.Empty`. -/
abbrev RpcResult := Except GrpcError Unit

/-- One adapter/OS call made by the server, recorded for frame reasoning.
Calls inside Unmount's retry loop carry the attempt index. -/
inductive Call where
  | findNfsProcess
  | isMountPoint (path : String)
  | mountVolume (devicePath mountPath : String)
  | newExporter
  | createExport (name : String)
  | deleteExport (name : String)
  | reloadExport
  | getMount (path : String)
  | getDeviceNumber (path : String)
  | checkDeviceValid (path : String)
  | getDiskFormat (path : String)
  | resizeEncryptoDevice (name : String)
  | resizeVolume (devicePath mountPath : String)
  | readDir (path : String)
  | fstrim (path : String)
  | isMountPointAt (attempt : Nat) (path : String)
  | unmountVolume (attempt : Nat) (path : String)
  deriving DecidableEq

/-- Environment of adapters.  Functions used once per RPC are plain; the two
calls inside Unmount's retry loop are indexed by the attempt number so the
environment can model OS state that changes between attempts. -/
structure Env where
  /-- `nfsServerIsRunning()`: `util.FindProcessByName("ganesha.nfsd")` succeeds. -/
  nfsRunning : Bool
  /-- `mounter.IsMountPoint(path)` returning `(bool, error)`. -/
  isMountPoint : String → Bool × Option String
  /-- `s.manager.MountVolume(vol, devicePath, mountPath)`. -/
  mountVolume : String → String → Option String
  /-- `nfs.NewExporter(configPath, types.ExportPath)` failure, if any. -/
  newExporter : Option String
  /-- `exporter.CreateExport(name)`. -/
  createExport : String → Option String
  /-- `exporter.DeleteExport(name)`. -/
  deleteExport : String → Option String
  /-- `exporter.ReloadExport()`. -/
  reloadExport : Option String
  /-- `filesystem.GetMount(mountPath)`. -/
  getMount : String → Except String MountRecord
  /-- `util.GetDeviceNumber(devicePath)`. -/
  getDeviceNumber : String → Except String Nat
  /-- `volume.CheckDeviceValid(devicePath)`. -/
  checkDeviceValid : String → Bool
  /-- `volume.GetDiskFormat(rawDevicePath)`. -/
  getDiskFormat : String → Except String String
  /-- `crypto.ResizeEncryptoDevice(name, engine, passphrase)`. -/
  resizeEncryptoDevice : String → Option String
  /-- `volume.ResizeVolume(devicePath, mountPath)` returning `(resized, error)`. -/
  resizeVolume : String → String → Except String Bool
  /-- `os.ReadDir(mountPath)` failure, if any. -/
  readDir : String → Option String
  /-- `fstrim` execution via `lhexec`. -/
  fstrim : String → Option String
  /-- `mounter.IsMountPoint` as seen by attempt `i` of Unmount's retry loop. -/
  isMountPointAt : Nat → String → Bool × Option String
  /-- `volume.UnmountVolume(mountPath)` as seen by attempt `i`. -/
  unmountVolumeAt : Nat → String → Option String
  /-- `types.GetVolumeDevicePath(name, dataEngine, encrypted)`. -/
  getVolumeDevicePath : String → String → Bool → String
  /-- `types.GetMountPath(name)`. -/
  getMountPath : String → String
  /-- `types.GetRawVolumeDevicePath(name)`. -/
  getRawVolumeDevicePath : String → String

/-- `unmountRetryCount` constant from `server.go`. -/
def unmountRetryCount : Nat := 30

/-- Whether `small` occurs as a prefix of `big` (character lists). -/
def startsWithChars : List Char → List Char → Bool
  | [], _ => true
  | _ :: _, [] => false
  | a :: as, b :: bs => a == b && startsWithChars as bs

/-- Whether `pat` occurs as a contiguous substring of `l`. -/
def hasSubChars (pat : List Char) : List Char → Bool
  | [] => startsWithChars pat []
  | c :: rest => startsWithChars pat (c :: rest) || hasSubChars pat rest

/-- `strings.Contains(s, pat)`. -/
def strContains (s pat : String) : Bool :=
  hasSubChars pat.toList s.toList

/-- The busy-substring test of Unmount's retry loop:
`strings.Contains(err.Error(), "target is busy")`. -/
def isBusyErr (msg : String) : Bool :=
  strContains msg "target is busy"

/-- `ShareManagerServer.export` (named `exportVol` because `export` is a Lean
keyword): create exporter, create the export entry, reload.  The
message on a CreateExport failure is "failed to delete nfs export",
exactly as in the source. -/
def exportVol (env : Env) (vol : Volume) : Option String × List Call :=
  match env.newExporter with
  | some e => (some ("failed to create nfs exporter: " ++ e), [.newExporter])
  | none =>
    match env.createExport vol.name with
    | some e => (some ("failed to delete nfs export: " ++ e), [.newExporter, .createExport vol.name])
    | none =>
      match env.reloadExport with
      | some e =>
          (some ("failed to reload nfs export: " ++ e),
           [.newExporter, .createExport vol.name, .reloadExport])
      | none => (none, [.newExporter, .createExport vol.name, .reloadExport])

/-- `ShareManagerServer.unexport`: create exporter, delete the export entry,
reload. -/
def unexport (env : Env) (vol : Volume) : Option String × List Call :=
  match env.newExporter with
  | some e => (some ("failed to create nfs exporter: " ++ e), [.newExporter])
  | none =>
    match env.deleteExport vol.name with
    | some e => (some ("failed to delete nfs export: " ++ e), [.newExporter, .deleteExport vol.name])
    | none =>
      match env.reloadExport with
      | some e =>
          (some ("failed to reload nfs export: " ++ e),
           [.newExporter, .deleteExport vol.name, .reloadExport])
      | none => (none, [.newExporter, .deleteExport vol.name, .reloadExport])

/-- `ShareManagerServer.unmount`, as executed by attempt `i` of Unmount's
retry loop: check the mount point (error → wrapped error; not a mount
point → nil), else unmount the volume. -/
def unmountAttempt (env : Env) (i : Nat) (vol : Volume) : Option String × List Call :=
  let mountPath := env.getMountPath vol.name
  let (isMP, e) := env.isMountPointAt i mountPath
  match e with
  | some msg =>
      (some ("failed to check mount point " ++ mountPath ++ ": " ++ msg),
       [.isMountPointAt i mountPath])
  | none =>
    if isMP = false then (none, [.isMountPointAt i mountPath])
    else (env.unmountVolumeAt i mountPath, [.isMountPointAt i mountPath, .unmountVolume i mountPath])

/-- Unmount's retry loop (`for i := 0; i < unmountRetryCount; i++`): run an
attempt; if it errs with the busy text, sleep and continue, else break.
Returns the final `err`, the number of attempts executed, and the trace.
`prev` is the value of `err` entering the loop (nil after a successful
unexport); it is only returned when the fuel is exhausted before the loop
body runs, which cannot happen from `Unmount` (fuel = 30 > 0). -/
def unmountLoop (env : Env) (vol : Volume) : Nat → Nat → Option String → Option String × Nat × List Call
  | _, 0, prev => (prev, 0, [])
  | i, fuel + 1, _ =>
    let (e, cs) := unmountAttempt env i vol
    match e with
    | some msg =>
      if isBusyErr msg then
        let (e2, n2, cs2) := unmountLoop env vol (i + 1) fuel (some msg)
        (e2, n2 + 1, cs ++ cs2)
      else (some msg, 1, cs)
    | none => (none, 1, cs)

/-- `ShareManagerServer.Unmount`. -/
def Unmount (env : Env) (vol : Volume) (st : ServerState) : RpcResult × ServerState × List Call :=
  if vol.name = "" then (.ok (), st, [])
  else if env.nfsRunning = false then (.ok (), st, [.findNfsProcess])
  else
    -- Blindly mark the volume as unexported, even if the unmount fails.
    let st1 : ServerState := { shareExported := false }
    let (ue, ucs) := unexport env vol
    match ue with
    | some msg => (.error ⟨.internal, msg⟩, st1, .findNfsProcess :: ucs)
    | none =>
      let (e, _, cs) := unmountLoop env vol 0 unmountRetryCount none
      match e with
      | some msg => (.error ⟨.internal, msg⟩, st1, .findNfsProcess :: (ucs ++ cs))
      | none => (.ok (), st1, .findNfsProcess :: (ucs ++ cs))

/-- The tail of `Mount` shared by its two branches: export the volume; on
success set `shareExported = true`. -/
def mountFinish (env : Env) (vol : Volume) (st : ServerState) (pre : List Call) :
    RpcResult × ServerState × List Call :=
  let (ee, ecs) := exportVol env vol
  match ee with
  | some e => (.error ⟨.internal, e⟩, st, pre ++ ecs)
  | none => (.ok (), { shareExported := true }, pre ++ ecs)

/-- `ShareManagerServer.Mount`. -/
def Mount (env : Env) (vol : Volume) (st : ServerState) : RpcResult × ServerState × List Call :=
  if vol.name = "" then (.ok (), st, [])
  else if env.nfsRunning = false then (.ok (), st, [.findNfsProcess])
  else if st.shareExported then (.ok (), st, [.findNfsProcess])
  else
    let devicePath := env.getVolumeDevicePath vol.name vol.dataEngine false
    let mountPath := env.getMountPath vol.name
    let (isMP, mpErr) := env.isMountPoint mountPath
    match mpErr with
    | some e =>
        (.error ⟨.internal, "failed to check mount point " ++ mountPath ++ ": " ++ e⟩,
         st, [.findNfsProcess, .isMountPoint mountPath])
    | none =>
      if isMP = false then
        match env.mountVolume devicePath mountPath with
        | some e =>
            (.error ⟨.internal, "failed to mount volume " ++ vol.name ++ ": " ++ e⟩,
             st, [.findNfsProcess, .isMountPoint mountPath, .mountVolume devicePath mountPath])
        | none =>
            mountFinish env vol st
              [.findNfsProcess, .isMountPoint mountPath, .mountVolume devicePath mountPath]
      else
        mountFinish env vol st [.findNfsProcess, .isMountPoint mountPath]

/-- `ShareManagerServer.FilesystemTrim` minus the untouched server state:
validate device, fetch the mount record, compare device numbers, check the
mount point (the `!isMountPoint` test precedes the error test, as in the
source), probe the directory, run fstrim. -/
def trimCore (env : Env) (vol : Volume) (encryptedDevice : Bool) : RpcResult × List Call :=
  if vol.name = "" then (.ok (), [])
  else
    let devicePath := env.getVolumeDevicePath vol.name vol.dataEngine encryptedDevice
    if env.checkDeviceValid devicePath = false then
      (.error ⟨.failedPrecondition, "volume " ++ vol.name ++ " is not valid"⟩,
       [.checkDeviceValid devicePath])
    else
      let mountPath := env.getMountPath vol.name
      match env.getMount mountPath with
      | .error e => (.error ⟨.internal, e⟩, [.checkDeviceValid devicePath, .getMount mountPath])
      | .ok mnt =>
        match env.getDeviceNumber devicePath with
        | .error e =>
            (.error ⟨.internal, e⟩,
             [.checkDeviceValid devicePath, .getMount mountPath, .getDeviceNumber devicePath])
        | .ok devNum =>
          if mnt.deviceNumber ≠ devNum then
            (.error ⟨.invalidArgument, "the device of mount point " ++ mountPath ++ " is not expected"⟩,
             [.checkDeviceValid devicePath, .getMount mountPath, .getDeviceNumber devicePath])
          else
            let (isMP, mpErr) := env.isMountPoint mountPath
            let pre : List Call :=
              [.checkDeviceValid devicePath, .getMount mountPath,
               .getDeviceNumber devicePath, .isMountPoint mountPath]
            if isMP = false then
              (.error ⟨.invalidArgument, mountPath ++ " is not a mount point"⟩, pre)
            else
              match mpErr with
              | some e => (.error ⟨.internal, e⟩, pre)
              | none =>
                match env.readDir mountPath with
                | some e => (.error ⟨.internal, e⟩, pre ++ [.readDir mountPath])
                | none =>
                  match env.fstrim mountPath with
                  | some e => (.error ⟨.internal, e⟩, pre ++ [.readDir mountPath, .fstrim mountPath])
                  | none => (.ok (), pre ++ [.readDir mountPath, .fstrim mountPath])

/-- `ShareManagerServer.FilesystemTrim`: the body never reads or writes the
manager's `shareExported` flag, so the state passes through `trimCore`
untouched. -/
def FilesystemTrim (env : Env) (vol : Volume) (encryptedDevice : Bool) (st : ServerState) :
    RpcResult × ServerState × List Call :=
  let c := trimCore env vol encryptedDevice
  (c.1, st, c.2)

/-- The tail of `FilesystemResize` shared by the encrypted and plain paths:
`volume.ResizeVolume(devicePath, mountPath)`; both the resized and the
no-op outcome return success. -/
def resizeFinish (env : Env) (devicePath mountPath : String) (pre : List Call) :
    RpcResult × List Call :=
  match env.resizeVolume devicePath mountPath with
  | .error e => (.error ⟨.internal, e⟩, pre ++ [.resizeVolume devicePath mountPath])
  | .ok _ => (.ok (), pre ++ [.resizeVolume devicePath mountPath])

/-- `ShareManagerServer.FilesystemResize` minus the untouched server state:
validate device, confirm the mount record, then (encrypted volumes only)
check the raw device's disk format is crypto_LUKS and resize the crypto
device, and finally resize the filesystem. -/
def resizeCore (env : Env) (vol : Volume) : RpcResult × List Call :=
  if vol.name = "" then (.ok (), [])
  else
    let devicePath := env.getVolumeDevicePath vol.name vol.dataEngine vol.isEncrypted
    if env.checkDeviceValid devicePath = false then
      (.error ⟨.failedPrecondition, "volume " ++ vol.name ++ " is not valid"⟩,
       [.checkDeviceValid devicePath])
    else
      let mountPath := env.getMountPath vol.name
      match env.getMount mountPath with
      | .error e => (.error ⟨.internal, e⟩, [.checkDeviceValid devicePath, .getMount mountPath])
      | .ok _ =>
        let pre : List Call := [.checkDeviceValid devicePath, .getMount mountPath]
        if vol.isEncrypted then
          let rawDevicePath := env.getRawVolumeDevicePath vol.name
          match env.getDiskFormat rawDevicePath with
          | .error e =>
              (.error ⟨.internal, "failed to determine disk format of volume " ++ vol.name ++ ": " ++ e⟩,
               pre ++ [.getDiskFormat rawDevicePath])
          | .ok diskFormat =>
            if diskFormat ≠ "crypto_LUKS" then
              (.error ⟨.invalidArgument, "unsupported disk encryption format " ++ diskFormat⟩,
               pre ++ [.getDiskFormat rawDevicePath])
            else
              match env.resizeEncryptoDevice vol.name with
              | some e =>
                  (.error ⟨.internal,
                    "failed to resize crypto device " ++ devicePath ++ " for volume " ++
                      vol.name ++ " node expansion: " ++ e⟩,
                   pre ++ [.getDiskFormat rawDevicePath, .resizeEncryptoDevice vol.name])
              | none =>
                  resizeFinish env devicePath mountPath
                    (pre ++ [.getDiskFormat rawDevicePath, .resizeEncryptoDevice vol.name])
        else
          resizeFinish env devicePath mountPath pre

/-- `ShareManagerServer.FilesystemResize`: the body never reads or writes
the manager's `shareExported` flag, so the state passes through untouched. -/
def FilesystemResize (env : Env) (vol : Volume) (st : ServerState) :
    RpcResult × ServerState × List Call :=
  let c := resizeCore env vol
  (c.1, st, c.2)

/-- Health serving status (`grpc_health_v1.HealthCheckResponse_SERVING` /
`NOT_SERVING`). -/
inductive ServingStatus where
  | serving
  | notServing
  deriving DecidableEq

/-- `ShareManagerHealthCheckServer.Check`: serving iff the wrapped server
reference (`s.srv`) is non-nil, else not-serving with an error. -/
def Check (srv : Option Unit) : ServingStatus × Option String :=
  match srv with
  | some _ => (.serving, none)
  | none => (.notServing, some "share manager gRPC server is not running")

/-- `ShareManagerHealthCheckServer.List` (named `ListHealth` to avoid the
core `List` type): unconditionally returns the map `{"grpc": SERVING}` and
a nil error, never inspecting `s.srv`. -/
def ListHealth (_srv : Option Unit) : List (String × ServingStatus) × Option String :=
  ([("grpc", .serving)], none)

/-! Concrete environments and volumes used to exercise the definitions. -/

/-- An environment in which every adapter call succeeds. -/
def envOK : Env where
  nfsRunning := true
  isMountPoint := fun _ => (true, none)
  mountVolume := fun _ _ => none
  newExporter := none
  createExport := fun _ => none
  deleteExport := fun _ => none
  reloadExport := none
  getMount := fun _ => .ok ⟨7⟩
  getDeviceNumber := fun _ => .ok 7
  checkDeviceValid := fun _ => true
  getDiskFormat := fun _ => .ok "crypto_LUKS"
  resizeEncryptoDevice := fun _ => none
  resizeVolume := fun _ _ => .ok true
  readDir := fun _ => none
  fstrim := fun _ => none
  isMountPointAt := fun _ _ => (true, none)
  unmountVolumeAt := fun _ _ => none
  getVolumeDevicePath := fun n _ _ => "/dev/longhorn/" ++ n
  getMountPath := fun n => "/export/" ++ n
  getRawVolumeDevicePath := fun n => "/dev/longhorn/raw/" ++ n

/-- A plain bound volume. -/
def volA : Volume := { name := "vol-1", dataEngine := "v1", passphrase := "", isEncrypted := false }

/-- An encrypted bound volume. -/
def volEnc : Volume :=
  { name := "vol-2", dataEngine := "v1", passphrase := "pw", isEncrypted := true }

/-- An unbound volume (empty name). -/
def volUnbound : Volume := { name := "", dataEngine := "v1", passphrase := "", isEncrypted := false }

/-- Environment whose export-reload step fails. -/
def envReloadFail : Env := { envOK with reloadExport := some "reload failed" }

/-- Environment whose export-entry deletion fails. -/
def envDeleteFail : Env := { envOK with deleteExport := fun _ => some "delete failed" }

/-- Environment in which every unmount attempt reports a busy target. -/
def envBusy : Env := { envOK with unmountVolumeAt := fun _ _ => some "umount: target is busy." }

/-- Environment in which the first unmount attempt fails with a non-busy error. -/
def envUnmountFail : Env := { envOK with unmountVolumeAt := fun _ _ => some "permission denied" }

/-- Environment whose device-number query disagrees with the mount record. -/
def envNumMismatch : Env := { envOK with getDeviceNumber := fun _ => .ok 8 }

/-- Environment reporting a non-LUKS disk format. -/
def envBadFormat : Env := { envOK with getDiskFormat := fun _ => .ok "ext4" }

/-- Environment whose mount-point query fails, reporting `(false, error)`. -/
def envMPFail : Env := { envOK with isMountPoint := fun _ => (false, some "query failed") }

/-- A successful mount+export pair inside `Mount`: the mount-point query
returned no error, the path either already was a mount point or the mount
call succeeded, and the export step succeeded. -/
def mountExportSucceeded (env : Env) (vol : Volume) : Prop :=
  (env.isMountPoint (env.getMountPath vol.name)).2 = none ∧
  ((env.isMountPoint (env.getMountPath vol.name)).1 = true ∨
     env.mountVolume (env.getVolumeDevicePath vol.name vol.dataEngine false)
       (env.getMountPath vol.name) = none) ∧
  (exportVol env vol).1 = none

/-! Helper lemmas. -/

/-- One-step unfolding of the retry loop at positive fuel. -/
theorem unmountLoop_succ (env : Env) (vol : Volume) (i n : Nat) (prev : Option String) :
    unmountLoop env vol i (n + 1) prev =
      match (unmountAttempt env i vol).1 with
      | some msg =>
        if isBusyErr msg = true then
          ((unmountLoop env vol (i + 1) n (some msg)).1,
           (unmountLoop env vol (i + 1) n (some msg)).2.1 + 1,
           (unmountAttempt env i vol).2 ++ (unmountLoop env vol (i + 1) n (some msg)).2.2)
        else (some msg, 1, (unmountAttempt env i vol).2)
      | none => (none, 1, (unmountAttempt env i vol).2) := by
  conv_lhs => rw [unmountLoop]

/-- The retry loop performs at most `fuel` attempts. -/
theorem unmountLoop_count_le (env : Env) (vol : Volume) :
    ∀ (fuel i : Nat) (prev : Option String),
      (unmountLoop env vol i fuel prev).2.1 ≤ fuel := by
  intro fuel
  induction fuel with
  | zero => intro i prev; simp [unmountLoop]
  | succ n ih =>
    intro i prev
    rw [unmountLoop_succ]
    rcases ha : (unmountAttempt env i vol).1 with _ | msg
    · simp
    · by_cases hb : isBusyErr msg = true
      · have := ih (i + 1) (some msg)
        simp [hb]
        omega
      · simp [hb]

/-- If attempts `i .. i+k` all fail with a busy error, the loop with fuel
`k + 1` performs all `k + 1` attempts and returns the last error. -/
theorem unmountLoop_all_busy (env : Env) (vol : Volume) :
    ∀ (k i : Nat) (prev : Option String) (m : String),
      (∀ j, j ≤ k → ∃ mj, (unmountAttempt env (i + j) vol).1 = some mj ∧ isBusyErr mj = true) →
      (unmountAttempt env (i + k) vol).1 = some m →
      (unmountLoop env vol i (k + 1) prev).1 = some m ∧
      (unmountLoop env vol i (k + 1) prev).2.1 = k + 1 := by
  intro k
  induction k with
  | zero =>
    intro i prev m hbusy hm
    rw [Nat.add_zero] at hm
    obtain ⟨m0, hm0, hb0⟩ := hbusy 0 (Nat.le_refl 0)
    rw [Nat.add_zero, hm] at hm0
    obtain rfl : m = m0 := by injection hm0
    rw [unmountLoop_succ, hm]
    simp [hb0, unmountLoop]
  | succ k ih =>
    intro i prev m hbusy hm
    obtain ⟨m0, hm0, hb0⟩ := hbusy 0 (Nat.zero_le _)
    rw [Nat.add_zero] at hm0
    have hshift : ∀ j, j ≤ k →
        ∃ mj, (unmountAttempt env (i + 1 + j) vol).1 = some mj ∧ isBusyErr mj = true := by
      intro j hj
      have := hbusy (j + 1) (Nat.succ_le_succ hj)
      rwa [show i + (j + 1) = i + 1 + j by omega] at this
    have hm' : (unmountAttempt env (i + 1 + k) vol).1 = some m := by
      rwa [show i + (k + 1) = i + 1 + k by omega] at hm
    have hrec := ih (i + 1) (some m0) m hshift hm'
    rw [unmountLoop_succ, hm0]
    simp only [hb0, if_true]
    exact ⟨hrec.1, by rw [hrec.2]⟩

/-- If attempts `i .. i+k-1` fail busy and attempt `i+k` fails with a
non-busy error, the loop stops after `k + 1` attempts and returns that
error. -/
theorem unmountLoop_stops_nonbusy (env : Env) (vol : Volume) :
    ∀ (k fuel i : Nat) (prev : Option String) (m : String),
      k < fuel →
      (∀ j, j < k → ∃ mj, (unmountAttempt env (i + j) vol).1 = some mj ∧ isBusyErr mj = true) →
      (unmountAttempt env (i + k) vol).1 = some m →
      isBusyErr m = false →
      (unmountLoop env vol i fuel prev).1 = some m ∧
      (unmountLoop env vol i fuel prev).2.1 = k + 1 := by
  intro k
  induction k with
  | zero =>
    intro fuel i prev m hk hbusy hm hnb
    cases fuel with
    | zero => omega
    | succ n =>
      rw [Nat.add_zero] at hm
      rw [unmountLoop_succ, hm]
      simp [hnb]
  | succ k ih =>
    intro fuel i prev m hk hbusy hm hnb
    cases fuel with
    | zero => omega
    | succ n =>
      obtain ⟨m0, hm0, hb0⟩ := hbusy 0 (Nat.succ_pos k)
      rw [Nat.add_zero] at hm0
      have hshift : ∀ j, j < k →
          ∃ mj, (unmountAttempt env (i + 1 + j) vol).1 = some mj ∧ isBusyErr mj = true := by
        intro j hj
        have := hbusy (j + 1) (Nat.succ_lt_succ hj)
        rwa [show i + (j + 1) = i + 1 + j by omega] at this
      have hm' : (unmountAttempt env (i + 1 + k) vol).1 = some m := by
        rwa [show i + (k + 1) = i + 1 + k by omega] at hm
      have hrec := ih n (i + 1) (some m0) m (by omega) hshift hm' hnb
      rw [unmountLoop_succ, hm0]
      simp only [hb0, if_true]
      exact ⟨hrec.1, by rw [hrec.2]⟩

/-- Every call recorded by `unexport` is an exporter call. -/
theorem unexport_trace_calls (env : Env) (vol : Volume) :
    ∀ c ∈ (unexport env vol).2,
      c = Call.newExporter ∨ c = Call.deleteExport vol.name ∨ c = Call.reloadExport := by
  unfold unexport
  repeat' split <;> try simp_all

/-- When the export server runs and the volume is bound, a successful Mount
leaves `shareExported = true`. -/
theorem Mount_ok_shareExported (env : Env) (vol : Volume) (st : ServerState)
    (h1 : vol.name ≠ "") (h2 : env.nfsRunning = true) :
    (Mount env vol st).1 = .ok () → (Mount env vol st).2.1.shareExported = true := by
  intro hok
  unfold Mount mountFinish at hok ⊢
  repeat' split at hok <;> try simp_all

/-- When unexport succeeds, Unmount surfaces the loop's final error as an
internal error. -/
theorem Unmount_internal_of_loopErr (env : Env) (vol : Volume) (st : ServerState)
    (h1 : vol.name ≠ "") (h2 : env.nfsRunning = true)
    (h3 : (unexport env vol).1 = none) (m : String)
    (hL : (unmountLoop env vol 0 unmountRetryCount none).1 = some m) :
    (Unmount env vol st).1 = .error ⟨.internal, m⟩ := by
  unfold Unmount
  rcases hu : unexport env vol with ⟨ue, ucs⟩
  rw [hu] at h3
  simp only at h3
  subst h3
  rcases hl : unmountLoop env vol 0 unmountRetryCount none with ⟨e, n, cs⟩
  rw [hl] at hL
  simp only at hL
  subst hL
  simp [h1, h2]

/-! Claim theorems. -/

/-- C5: every one of Mount, Unmount, FilesystemResize and FilesystemTrim,
called with an empty volume name, returns success, makes no adapter call,
and leaves the state (in particular `shareExported`) unchanged. -/
theorem emptyName_noop (env : Env) (vol : Volume) (st : ServerState) (b : Bool)
    (h : vol.name = "") :
    Mount env vol st = (.ok (), st, []) ∧
    Unmount env vol st = (.ok (), st, []) ∧
    FilesystemResize env vol st = (.ok (), st, []) ∧
    FilesystemTrim env vol b st = (.ok (), st, []) := by
  refine ⟨?_, ?_, ?_, ?_⟩ <;>
    simp [Mount, Unmount, FilesystemResize, FilesystemTrim, resizeCore, trimCore, h]

/-- Witness for C5 at the unbound volume. -/
theorem emptyName_noop_witness :
    volUnbound.name = "" ∧
    (Mount envOK volUnbound ⟨false⟩ = (.ok (), ⟨false⟩, []) ∧
     Unmount envOK volUnbound ⟨false⟩ = (.ok (), ⟨false⟩, []) ∧
     FilesystemResize envOK volUnbound ⟨false⟩ = (.ok (), ⟨false⟩, []) ∧
     FilesystemTrim envOK volUnbound false ⟨false⟩ = (.ok (), ⟨false⟩, [])) :=
  ⟨rfl, emptyName_noop envOK volUnbound ⟨false⟩ false rfl⟩

/-- C10: FilesystemTrim neither reads nor writes `shareExported`: the state
comes back unchanged, and the result and the adapter-call trace are the
same for any two input states. -/
theorem FilesystemTrim_frame (env : Env) (vol : Volume) (b : Bool) (st st' : ServerState) :
    (FilesystemTrim env vol b st).2.1 = st ∧
    (FilesystemTrim env vol b st).1 = (FilesystemTrim env vol b st').1 ∧
    (FilesystemTrim env vol b st).2.2 = (FilesystemTrim env vol b st').2.2 :=
  ⟨rfl, rfl, rfl⟩

/-- C8 counterexample: with a nil controller reference, `List` still reports
"grpc" as serving and returns no error, contrary to the claim that it
returns not-serving together with an error. -/
theorem ListHealth_nil_controller_counterexample :
    (ListHealth none).1 = [("grpc", ServingStatus.serving)] ∧ (ListHealth none).2 = none :=
  ⟨rfl, rfl⟩

/-- C8 amended: `Check` returns serving with no error when the controller
reference is non-nil and not-serving with an explicit error when it is nil;
`List` returns the serving status for "grpc" with no error regardless of
the controller reference. -/
theorem health_check_and_list_statuses :
    Check (some ()) = (ServingStatus.serving, none) ∧
    Check none = (ServingStatus.notServing, some "share manager gRPC server is not running") ∧
    ListHealth (some ()) = ([("grpc", ServingStatus.serving)], none) ∧
    ListHealth none = ([("grpc", ServingStatus.serving)], none) :=
  ⟨rfl, rfl, rfl, rfl⟩

/-- C6: when the mount record's device number differs from the device number
resolved for the requested device path, FilesystemTrim returns an
invalid-argument error and never calls fstrim. -/
theorem FilesystemTrim_device_mismatch (env : Env) (vol : Volume) (b : Bool)
    (st : ServerState) (mnt : MountRecord) (devNum : Nat)
    (h1 : vol.name ≠ "")
    (h2 : env.checkDeviceValid (env.getVolumeDevicePath vol.name vol.dataEngine b) = true)
    (h3 : env.getMount (env.getMountPath vol.name) = .ok mnt)
    (h4 : env.getDeviceNumber (env.getVolumeDevicePath vol.name vol.dataEngine b) = .ok devNum)
    (h5 : mnt.deviceNumber ≠ devNum) :
    (FilesystemTrim env vol b st).1 =
      .error ⟨.invalidArgument,
        "the device of mount point " ++ env.getMountPath vol.name ++ " is not expected"⟩ ∧
    ∀ p, Call.fstrim p ∉ (FilesystemTrim env vol b st).2.2 := by
  unfold FilesystemTrim trimCore
  simp [h1, h2, h3, h4, h5]

/-- Witness for C6: device number 8 against a mount record with number 7. -/
theorem FilesystemTrim_device_mismatch_witness :
    ((FilesystemTrim envNumMismatch volA false ⟨false⟩).1 =
      .error ⟨.invalidArgument,
        "the device of mount point " ++ envNumMismatch.getMountPath volA.name ++
          " is not expected"⟩) ∧
    Call.fstrim (envNumMismatch.getMountPath volA.name) ∉
      (FilesystemTrim envNumMismatch volA false ⟨false⟩).2.2 := by
  have h := FilesystemTrim_device_mismatch envNumMismatch volA false ⟨false⟩ ⟨7⟩ 8
    (by decide) rfl rfl rfl (by decide)
  exact ⟨h.1, h.2 _⟩

/-- C9: when the mount-point query fails and reports `(false, err)`,
FilesystemTrim returns the invalid-argument "not a mount point" error (the
`!isMountPoint` test precedes the error test), not an internal error. -/
theorem FilesystemTrim_nonMountPoint_before_queryError (env : Env) (vol : Volume) (b : Bool)
    (st : ServerState) (mnt : MountRecord) (devNum : Nat) (e : String)
    (h1 : vol.name ≠ "")
    (h2 : env.checkDeviceValid (env.getVolumeDevicePath vol.name vol.dataEngine b) = true)
    (h3 : env.getMount (env.getMountPath vol.name) = .ok mnt)
    (h4 : env.getDeviceNumber (env.getVolumeDevicePath vol.name vol.dataEngine b) = .ok devNum)
    (h5 : mnt.deviceNumber = devNum)
    (h6 : env.isMountPoint (env.getMountPath vol.name) = (false, some e)) :
    (FilesystemTrim env vol b st).1 =
      .error ⟨.invalidArgument, env.getMountPath vol.name ++ " is not a mount point"⟩ := by
  unfold FilesystemTrim trimCore
  simp [h1, h2, h3, h4, h5, h6]

/-- Witness for C9: a failed mount-point query yields the invalid-argument
"not a mount point" outcome. -/
theorem FilesystemTrim_nonMountPoint_before_queryError_witness :
    (FilesystemTrim envMPFail volA false ⟨false⟩).1 =
      .error ⟨.invalidArgument, envMPFail.getMountPath volA.name ++ " is not a mount point"⟩ :=
  FilesystemTrim_nonMountPoint_before_queryError envMPFail volA false ⟨false⟩ ⟨7⟩ 7
    "query failed" (by decide) rfl rfl rfl rfl rfl

/-- C7: FilesystemResize on an encrypted volume whose raw device format is
not crypto_LUKS fails with invalid-argument and calls neither the
crypto-resize nor the filesystem-resize adapter. -/
theorem FilesystemResize_badFormat (env : Env) (vol : Volume) (st : ServerState)
    (mnt : MountRecord) (fmt : String)
    (h1 : vol.name ≠ "")
    (h2 : vol.isEncrypted = true)
    (h3 : env.checkDeviceValid
        (env.getVolumeDevicePath vol.name vol.dataEngine vol.isEncrypted) = true)
    (h4 : env.getMount (env.getMountPath vol.name) = .ok mnt)
    (h5 : env.getDiskFormat (env.getRawVolumeDevicePath vol.name) = .ok fmt)
    (h6 : fmt ≠ "crypto_LUKS") :
    (FilesystemResize env vol st).1 =
      .error ⟨.invalidArgument, "unsupported disk encryption format " ++ fmt⟩ ∧
    (∀ n, Call.resizeEncryptoDevice n ∉ (FilesystemResize env vol st).2.2) ∧
    (∀ dp mp, Call.resizeVolume dp mp ∉ (FilesystemResize env vol st).2.2) := by
  rw [h2] at h3
  unfold FilesystemResize resizeCore
  simp [h1, h2, h3, h4, h5, h6]

/-- C1: Mount asserts `shareExported = true` only after a successful
mount+export pair; any adapter failure yields an internal error and leaves
the state (in particular `shareExported`, false on the failing paths)
unchanged. -/
theorem Mount_shareExported_only_after_success (env : Env) (vol : Volume) (st : ServerState) :
    (∀ e, (Mount env vol st).1 = .error e → e.code = .internal ∧ (Mount env vol st).2.1 = st) ∧
    ((Mount env vol st).2.1.shareExported = true →
      st.shareExported = true ∨
        ((Mount env vol st).1 = .ok () ∧ mountExportSucceeded env vol)) ∧
    (vol.name ≠ "" → env.nfsRunning = true → st.shareExported = false →
      (∀ e, (env.isMountPoint (env.getMountPath vol.name)).2 = some e →
        (Mount env vol st).1 = .error ⟨.internal,
          "failed to check mount point " ++ env.getMountPath vol.name ++ ": " ++ e⟩) ∧
      ((env.isMountPoint (env.getMountPath vol.name)).2 = none →
        (env.isMountPoint (env.getMountPath vol.name)).1 = false →
        ∀ e, env.mountVolume (env.getVolumeDevicePath vol.name vol.dataEngine false)
            (env.getMountPath vol.name) = some e →
          (Mount env vol st).1 = .error ⟨.internal,
            "failed to mount volume " ++ vol.name ++ ": " ++ e⟩) ∧
      ((env.isMountPoint (env.getMountPath vol.name)).2 = none →
        ((env.isMountPoint (env.getMountPath vol.name)).1 = true ∨
          env.mountVolume (env.getVolumeDevicePath vol.name vol.dataEngine false)
            (env.getMountPath vol.name) = none) →
        ∀ m, (exportVol env vol).1 = some m →
          (Mount env vol st).1 = .error ⟨.internal, m⟩)) := by
  refine ⟨?_, ?_, ?_⟩
  · unfold Mount mountFinish
    intro e he
    repeat' split at he <;> try simp_all
    all_goals (subst he; rfl)
  · unfold Mount mountFinish
    repeat' split <;> simp_all [mountExportSucceeded]
  · intro hn hr hsf
    rcases hq : env.isMountPoint (env.getMountPath vol.name) with ⟨b, q⟩
    refine ⟨?_, ?_, ?_⟩
    · intro e he
      simp only at he
      subst he
      simp [Mount, hn, hr, hsf, hq]
    · intro hqn hbf e he
      simp only at hqn hbf
      subst hqn; subst hbf
      simp [Mount, hn, hr, hsf, hq, he]
    · intro hqn hdisj m hm
      simp only at hqn hdisj
      subst hqn
      rcases hex : exportVol env vol with ⟨ee, ecs⟩
      rw [hex] at hm
      simp only at hm
      subst hm
      rcases hdisj with hb | hmv
      · subst hb
        simp [Mount, mountFinish, hn, hr, hsf, hq, hex]
      · cases b <;>
          simp [Mount, mountFinish, hn, hr, hsf, hq, hex, hmv]

/-- Witness for C1: a failing export reload leaves the flag false and
returns an internal error. -/
theorem Mount_shareExported_only_after_success_witness :
    GrpcError.code ⟨.internal, "failed to reload nfs export: " ++ "reload failed"⟩ =
      GrpcCode.internal ∧
    (Mount envReloadFail volA ⟨false⟩).2.1 = ⟨false⟩ := by
  have h := (Mount_shareExported_only_after_success envReloadFail volA ⟨false⟩).1
    ⟨.internal, "failed to reload nfs export: " ++ "reload failed"⟩ rfl
  exact ⟨h.1, h.2⟩

/-- C2: Mount is idempotent: with a bound volume and the export server
running, an already-exported share returns success at once with only the
process probe in the trace, and after any successful Mount a second Mount
does the same. -/
theorem Mount_idempotent (env : Env) (vol : Volume) (st : ServerState)
    (h1 : vol.name ≠ "") (h2 : env.nfsRunning = true) :
    (st.shareExported = true → Mount env vol st = (.ok (), st, [Call.findNfsProcess])) ∧
    ((Mount env vol st).1 = .ok () →
      (Mount env vol st).2.1.shareExported = true ∧
      Mount env vol (Mount env vol st).2.1 =
        (.ok (), (Mount env vol st).2.1, [Call.findNfsProcess])) := by
  have key : ∀ st' : ServerState, st'.shareExported = true →
      Mount env vol st' = (.ok (), st', [Call.findNfsProcess]) := by
    intro st' hs'
    simp [Mount, h1, h2, hs']
  refine ⟨key st, fun hok => ?_⟩
  have hflag := Mount_ok_shareExported env vol st h1 h2 hok
  exact ⟨hflag, key _ hflag⟩

/-- Witness for C2: an exported share short-circuits, and a successful
Mount from the unexported state is followed by a no-op second Mount. -/
theorem Mount_idempotent_witness :
    (Mount envOK volA ⟨true⟩ = (.ok (), ⟨true⟩, [Call.findNfsProcess])) ∧
    ((Mount envOK volA ⟨false⟩).2.1.shareExported = true ∧
     Mount envOK volA (Mount envOK volA ⟨false⟩).2.1 =
       (.ok (), (Mount envOK volA ⟨false⟩).2.1, [Call.findNfsProcess])) := by
  have h := Mount_idempotent envOK volA ⟨true⟩ (by decide) rfl
  have h' := Mount_idempotent envOK volA ⟨false⟩ (by decide) rfl
  exact ⟨h.1 rfl, h'.2 rfl⟩

/-- C3: with a bound volume and the export server running, Unmount clears
`shareExported` before the unexport/unmount steps, so it is false
afterwards even when unexport fails; a failing unexport is surfaced as an
internal error and no unmount-step call is made. -/
theorem Unmount_optimistic_unexport (env : Env) (vol : Volume) (st : ServerState)
    (h1 : vol.name ≠ "") (h2 : env.nfsRunning = true) :
    (Unmount env vol st).2.1.shareExported = false ∧
    (∀ m, (unexport env vol).1 = some m →
      (Unmount env vol st).1 = .error ⟨.internal, m⟩ ∧
      ∀ c ∈ (Unmount env vol st).2.2, ∀ i p,
        c ≠ Call.isMountPointAt i p ∧ c ≠ Call.unmountVolume i p) := by
  constructor
  · unfold Unmount
    repeat' split <;> try simp_all
  · intro m hm
    have hcalls := unexport_trace_calls env vol
    have hun : Unmount env vol st =
        (.error ⟨.internal, m⟩, ⟨false⟩, Call.findNfsProcess :: (unexport env vol).2) := by
      unfold Unmount
      rcases hu : unexport env vol with ⟨ue, ucs⟩
      rw [hu] at hm
      simp only at hm
      subst hm
      simp [h1, h2]
    rw [hun]
    refine ⟨rfl, ?_⟩
    intro c hc i p
    rcases List.mem_cons.mp hc with hc' | hc'
    · subst hc'; exact ⟨by simp, by simp⟩
    · rcases hcalls c hc' with h | h | h <;> subst h <;> exact ⟨by simp, by simp⟩

/-- Witness for C3: a failing export-entry deletion still leaves
`shareExported = false` and surfaces an internal error. -/
theorem Unmount_optimistic_unexport_witness :
    (Unmount envDeleteFail volA ⟨true⟩).2.1.shareExported = false ∧
    (Unmount envDeleteFail volA ⟨true⟩).1 =
      .error ⟨.internal, "failed to delete nfs export: " ++ "delete failed"⟩ := by
  have h := Unmount_optimistic_unexport envDeleteFail volA ⟨true⟩ (by decide) rfl
  exact ⟨h.1, (h.2 _ rfl).1⟩

/-- C4: Unmount retries an attempt only on a busy-text error: the attempt
count never exceeds `unmountRetryCount`; if every attempt reports busy the
loop runs exactly `unmountRetryCount` attempts and the last error is
surfaced as an internal error; a non-busy error stops the loop at once
(`k` busy attempts are followed by exactly one more) and is surfaced as an
internal error. -/
theorem Unmount_retry_policy (env : Env) (vol : Volume) (st : ServerState)
    (h1 : vol.name ≠ "") (h2 : env.nfsRunning = true)
    (h3 : (unexport env vol).1 = none) :
    unmountRetryCount = 30 ∧
    ((unmountLoop env vol 0 unmountRetryCount none).2.1 ≤ unmountRetryCount) ∧
    (∀ m, (∀ j, j < unmountRetryCount →
          ∃ mj, (unmountAttempt env j vol).1 = some mj ∧ isBusyErr mj = true) →
        (unmountAttempt env (unmountRetryCount - 1) vol).1 = some m →
        (Unmount env vol st).1 = .error ⟨.internal, m⟩ ∧
        (unmountLoop env vol 0 unmountRetryCount none).2.1 = unmountRetryCount) ∧
    (∀ k m, k < unmountRetryCount →
        (∀ j, j < k → ∃ mj, (unmountAttempt env j vol).1 = some mj ∧ isBusyErr mj = true) →
        (unmountAttempt env k vol).1 = some m →
        isBusyErr m = false →
        (Unmount env vol st).1 = .error ⟨.internal, m⟩ ∧
        (unmountLoop env vol 0 unmountRetryCount none).2.1 = k + 1) := by
  have hru : unmountRetryCount = 29 + 1 := rfl
  refine ⟨rfl, unmountLoop_count_le env vol _ _ _, ?_, ?_⟩
  · intro m hbusy hm
    have hb' : ∀ j, j ≤ 29 →
        ∃ mj, (unmountAttempt env (0 + j) vol).1 = some mj ∧ isBusyErr mj = true := by
      intro j hj
      have := hbusy j (by rw [hru]; omega)
      simpa using this
    have hm' : (unmountAttempt env (0 + 29) vol).1 = some m := by
      have h29 : unmountRetryCount - 1 = 29 := by rw [hru]
      rw [h29] at hm
      simpa using hm
    have h := unmountLoop_all_busy env vol 29 0 none m hb' hm'
    refine ⟨Unmount_internal_of_loopErr env vol st h1 h2 h3 m (by rw [hru]; exact h.1), ?_⟩
    rw [hru]
    exact h.2
  · intro k m hk hbusy hm hnb
    have hb' : ∀ j, j < k →
        ∃ mj, (unmountAttempt env (0 + j) vol).1 = some mj ∧ isBusyErr mj = true := by
      intro j hj
      simpa using hbusy j hj
    have hm' : (unmountAttempt env (0 + k) vol).1 = some m := by simpa using hm
    have h := unmountLoop_stops_nonbusy env vol k unmountRetryCount 0 none m hk hb' hm' hnb
    exact ⟨Unmount_internal_of_loopErr env vol st h1 h2 h3 m h.1, h.2⟩

/-- Witness for C4: with every attempt busy, Unmount surfaces the busy
error and the loop runs the full retry budget. -/
theorem Unmount_retry_policy_witness :
    (Unmount envBusy volA ⟨true⟩).1 = .error ⟨.internal, "umount: target is busy."⟩ ∧
    (unmountLoop envBusy volA 0 unmountRetryCount none).2.1 = unmountRetryCount := by
  have h := (Unmount_retry_policy envBusy volA ⟨true⟩ (by decide) rfl rfl).2.2.1
    "umount: target is busy."
    (fun j hj => ⟨"umount: target is busy.", rfl, by decide⟩)
    rfl
  exact h

/-- Witness for C7: an encrypted volume whose raw device reports ext4. -/
theorem FilesystemResize_badFormat_witness :
    ((FilesystemResize envBadFormat volEnc ⟨false⟩).1 =
      .error ⟨.invalidArgument, "unsupported disk encryption format " ++ "ext4"⟩) ∧
    Call.resizeEncryptoDevice volEnc.name ∉ (FilesystemResize envBadFormat volEnc ⟨false⟩).2.2 := by
  have h := FilesystemResize_badFormat envBadFormat volEnc ⟨false⟩ ⟨7⟩ "ext4"
    (by decide) rfl rfl rfl rfl (by decide)
  exact ⟨h.1, h.2.1 _⟩

end ShareManager
